import Mathlib

/-!
# node-message-backend: authentication, authorization, post lifecycle, feed pages

A shallow embedding of `middleware/auth.js`, `graphql/resolvers.js` and
`controllers/feed.js`.  Asynchronous handlers are sequential code over the
document store, so each handler is a function from the world before the call
to its result and the world after it.  Calls to collaborators that only have
an effect (`clearImage`, `io.getIO().emit`) are recorded in logs.
-/

namespace MessageBackend

/-! ## Data model -/

/-- A user document: `_id` (as a string), `email`, `name`, `password` (hash)
and the ordered array `posts` of post ids. -/
structure User where
  id : String
  email : String
  name : String
  password : String
  posts : List String
deriving DecidableEq, Repr

/-- A post document.  `creator` is the stored reference to a user id, `none`
when the field is not set; `createdAt` is the creation timestamp. -/
structure Post where
  id : String
  title : String
  content : String
  image : String
  creator : Option String
  createdAt : Nat
deriving DecidableEq, Repr

/-- The two collections of the document store. -/
structure Store where
  posts : List Post
  users : List User
deriving DecidableEq, Repr

/-- What a socket event carries: a post document or a bare post id. -/
inductive Subject where
  | doc (p : Post)
  | ref (postId : String)
deriving DecidableEq, Repr

/-- An event sent with `io.getIO().emit(channel, payload)`. -/
structure Event where
  channel : String
  action : String
  subject : Subject
deriving DecidableEq, Repr

/-- The world a handler runs in: the store, the keys `clearImage` has been
invoked on (oldest first) and the events emitted (oldest first). -/
structure World where
  store : Store
  cleared : List String
  events : List Event
deriving DecidableEq, Repr

/-- A thrown error object: `code` is `err.code` in the resolvers and
`err.statusCode` in the controllers (`none` when the property is not set, as on
a `TypeError`), `data` the list of violation messages (empty when not set). -/
structure Err where
  message : String
  code : Option Nat
  data : List String
deriving DecidableEq, Repr

/-- The per-request object as the handlers read it: `isAuth` and `userId` are
the properties the auth middleware writes, `none` when not set. -/
structure Req where
  isAuth : Option Bool
  userId : Option String
deriving DecidableEq, Repr

/-- The request of an identity `(isAuth, userId)`. -/
def Req.ofIdentity (isAuth : Bool) (userId : String) : Req :=
  { isAuth := some isAuth, userId := some userId }

/-- The request the middleware leaves for an anonymous caller. -/
def Req.anonymous : Req := { isAuth := some false, userId := none }

/-- JavaScript truthiness of `req.isAuth`. -/
def Req.authed (req : Req) : Bool := req.isAuth == some true

/-- The status a transport reports for an error: `code || 500`
(`customFormatErrorFn` in app.js, and `statusCode || 500` in its error handler). -/
def Err.status (e : Err) : Nat :=
  match e.code with
  | some c => if c = 0 then 500 else c
  | none => 500

/-- A `TypeError` raised by the runtime: no code attached. -/
def typeError (msg : String) : Err := { message := msg, code := none, data := [] }

/-! ## Store operations (mongoose) -/

/-- The query `Post.findById(id)`. -/
def Store.findPost (s : Store) (id : String) : Option Post :=
  s.posts.find? (fun p => p.id == id)

/-- The query `User.findById(id)`. -/
def Store.findUser (s : Store) (id : String) : Option User :=
  s.users.find? (fun u => u.id == id)

/-- The query `User.findOne({ email })`. -/
def Store.findUserByEmail (s : Store) (email : String) : Option User :=
  s.users.find? (fun u => u.email == email)

/-- The value of `post.creator` after `.populate('creator')`: the referenced user
document, `null` when the reference is not set or no such user exists. -/
def Store.populateCreator (s : Store) (p : Post) : Option User :=
  p.creator.bind s.findUser

/-- Saving a new post document: it is added to the collection. -/
def Store.insertPost (s : Store) (p : Post) : Store :=
  { s with posts := s.posts ++ [p] }

/-- Saving a loaded post document: the stored document of that id is replaced. -/
def Store.savePost (s : Store) (p : Post) : Store :=
  { s with posts := s.posts.map (fun q => if q.id = p.id then p else q) }

/-- The call `Post.findByIdAndDelete(id)`. -/
def Store.deletePost (s : Store) (id : String) : Store :=
  { s with posts := s.posts.filter (fun q => q.id != id) }

/-- Saving a new user document. -/
def Store.insertUser (s : Store) (u : User) : Store :=
  { s with users := s.users ++ [u] }

/-- Saving a loaded user document. -/
def Store.saveUser (s : Store) (u : User) : Store :=
  { s with users := s.users.map (fun v => if v.id = u.id then u else v) }

/-- The array update `user.posts.push(id)`. -/
def User.pushPost (u : User) (postId : String) : User :=
  { u with posts := u.posts ++ [postId] }

/-- The array update `user.posts.pull(id)`: every occurrence is removed. -/
def User.pullPost (u : User) (postId : String) : User :=
  { u with posts := u.posts.filter (fun i => i != postId) }

/-- Modelled from the spec: `clearImage` of `util/file`, which is not among the
sources.  The attachment janitor is given a storage key; a call is recorded as the
key appended to the log.  Here the call returns normally; what the resolvers do
when it rejects is the subject of `Resolvers.Awaited`. -/
def clearImage (key : String) (w : World) : World :=
  { w with cleared := w.cleared ++ [key] }

/-- The call `io.getIO().emit('posts', payload)`. -/
def emit (action : String) (subject : Subject) (w : World) : World :=
  { w with events := w.events ++ [{ channel := "posts", action := action, subject := subject }] }

/-! ## The validator library, as the handlers use it -/

/-- The test `validator.isLength(str, { min })`: the length counts characters
(a surrogate pair counts once), as `String.length` does. -/
def isLength (str : String) (min : Nat) : Bool := decide (min ≤ str.length)

/-- The test `validator.isEmpty(str)` with its default options: the string has
length zero (whitespace is not ignored unless `ignore_whitespace` is passed). -/
def isEmpty (str : String) : Bool := decide (str.length = 0)

/-- The test `validator.isAlphanumeric(str)` with its default locale: the string
matches `/^[0-9A-Z]+$/i`. -/
def isAlphanumeric (str : String) : Bool :=
  !str.data.isEmpty && str.data.all Char.isAlphanum

/-- The library functions whose result the handlers only pass on:
`validator.isEmail`, `validator.escape` and `bcrypt.hash(_, 12)`. -/
structure Lib where
  isEmail : String → Bool
  escape : String → String
  hash : String → String

/-! ## middleware/auth.js -/

namespace Middleware

/-- What `jwt.verify(token, secret)` does: it returns a decoded claim (a truthy
value, of which only the property `userId` is read; `none` when the claim has no
such property), returns a falsy value, or throws. -/
inductive VerifyOutcome where
  | claim (userId : Option String)
  | falsy
  | throws
deriving DecidableEq, Repr

/-- One run of the middleware: the request object afterwards, the arguments of
each call of `next` in order (`none` for a call with no error), and what
`jwt.verify` did when the run invoked it (`none` when it was not invoked). -/
structure Run where
  req : Req
  nextCalls : List (Option Err)
  verified : Option VerifyOutcome
deriving DecidableEq, Repr

/-- The parts of a string between single spaces, as `str.split(' ')` gives them:
the empty string has the one part `""`, and adjacent spaces delimit empty parts. -/
def splitSpaces : List Char → List (List Char)
  | [] => [[]]
  | c :: cs =>
      match splitSpaces cs with
      | [] => if c = ' ' then [[], []] else [[c]]
      | part :: rest => if c = ' ' then [] :: part :: rest else (c :: part) :: rest

/-- The expression `header.split(' ')[1]`: the second of the parts separated by
single spaces, `undefined` when there is none. -/
def extractToken (header : String) : Option String :=
  ((splitSpaces header.data)[1]?).map String.mk

/-- The exported middleware.  `header` is `req.get('Authorization')` (`none` when
the header is absent), `verify` stands for `jwt.verify(_, JWT_SECRET)`.  The
result is `.error` when an exception leaves the function. -/
def auth (verify : Option String → VerifyOutcome) (header : Option String) (req : Req) :
    Except Err Run :=
  match header with
  | none =>
      -- `!authHeader` on `undefined`
      .ok { req := { req with isAuth := some false }, nextCalls := [none], verified := none }
  | some h =>
      if h.isEmpty then
        -- `!authHeader` on the empty string
        .ok { req := { req with isAuth := some false }, nextCalls := [none], verified := none }
      else
        match verify (extractToken h) with
        | .throws =>
            -- the `catch` block
            .ok { req := { req with isAuth := some false }, nextCalls := [none],
                  verified := some .throws }
        | .falsy =>
            .ok { req := { req with isAuth := some false }, nextCalls := [none],
                  verified := some .falsy }
        | .claim uid =>
            .ok { req := { req with userId := uid, isAuth := some true }, nextCalls := [none],
                  verified := some (.claim uid) }

end Middleware

/-! ## graphql/resolvers.js -/

namespace Resolvers

/-- The argument `userInput` of `createUser`. -/
structure UserInput where
  email : String
  name : String
  password : String
deriving DecidableEq, Repr

/-- The argument `postInput` of `createPost` and `updatePost`. -/
structure PostInput where
  title : String
  image : String
  content : String
deriving DecidableEq, Repr

/-- The violations `createUser` collects (lines 13-31), in the order pushed. -/
def createUserErrors (lib : Lib) (input : UserInput) : List String :=
  (if !lib.isEmail input.email then ["Invalid email. "] else []) ++
  (if isEmpty input.name then ["Name must not be empty. "] else []) ++
  (if !isLength input.password 5 || !isAlphanumeric input.password then
    ["Password must have a minimun length of 5 numbers or alphabets. "] else [])

/-- The resolver `createUser`; `newId` is the id the store gives the new document. -/
def createUser (lib : Lib) (newId : String) (input : UserInput) (w : World) :
    Except Err User × World :=
  let errors := createUserErrors lib input
  if errors.length > 0 then
    (.error { message := "Invalid input. ", code := some 422, data := errors }, w)
  else
    match w.store.findUserByEmail input.email with
    | some _ => (.error { message := "User exists. ", code := some 409, data := [] }, w)
    | none =>
        let user : User :=
          { id := newId, email := input.email, name := lib.escape input.name,
            password := lib.hash input.password, posts := [] }
        (.ok user, { w with store := w.store.insertUser user })

/-- The violations `createPost` and `updatePost` collect (lines 118-126 and
226-234), in the order pushed. -/
def postInputErrors (title content : String) : List String :=
  (if !isLength title 5 then ["Invalid title. "] else []) ++
  (if !isLength content 5 then ["Invalid content. "] else [])

/-- The resolver `createPost`; `newId` and `now` are the id and the creation
time the store gives the new document. -/
def createPost (lib : Lib) (newId : String) (now : Nat) (input : PostInput) (req : Req)
    (w : World) : Except Err Post × World :=
  if !req.authed then
    (.error { message := "Not authenticated. ", code := some 401, data := [] },
      clearImage input.image w)
  else
    let errors := postInputErrors input.title input.content
    if errors.length > 0 then
      (.error { message := "Invalid input. ", code := some 422, data := errors },
        clearImage input.image w)
    else
      match req.userId.bind w.store.findUser with
      | none =>
          (.error { message := "Invalid user. ", code := some 401, data := [] },
            clearImage input.image w)
      | some user =>
          let post : Post :=
            { id := newId, title := lib.escape input.title, content := lib.escape input.content,
              image := input.image, creator := some user.id, createdAt := now }
          let s1 := w.store.insertPost post
          let s2 := s1.saveUser (user.pushPost post.id)
          (.ok post, { w with store := s2 })

/-- The creator field of a listed post: the user document, or the placeholder
`{ name: 'DELETED USER' }`. -/
inductive CreatorView where
  | user (u : User)
  | deleted
deriving DecidableEq, Repr

/-- A post as the listing returns it. -/
structure PostView where
  doc : Post
  creator : CreatorView
deriving DecidableEq, Repr

/-- The result of `posts`. -/
structure PostsPage where
  posts : List PostView
  totalPosts : Nat
deriving DecidableEq, Repr

/-- The option `.sort({ createdAt: -1 })` of a query: newest first. -/
def sortByCreatedAtDesc (ps : List Post) : List Post :=
  ps.insertionSort (fun a b => b.createdAt ≤ a.createdAt)

/-- The argument of `.skip(...)` in `posts` (line 176); `page` is `none` when the
argument is absent or null. -/
def skipOf (page : Option Int) : Int :=
  match page with
  | some p => if p ≥ 1 then (p - 1) * 2 else 0
  | none => 0

/-- The mapping of line 182-189: the populated creator or the placeholder. -/
def viewOf (s : Store) (p : Post) : PostView :=
  { doc := p,
    creator := match s.populateCreator p with
      | some u => .user u
      | none => .deleted }

/-- The resolver `posts`.  The query runs as sort, then skip, then limit,
whatever the order in which the options are chained. -/
def posts (page : Option Int) (req : Req) (w : World) : Except Err PostsPage × World :=
  if !req.authed then
    (.error { message := "Not authenticated. ", code := some 401, data := [] }, w)
  else
    let itemsPerPage := 2
    let totalPosts := w.store.posts.length
    let found := ((sortByCreatedAtDesc w.store.posts).drop (skipOf page).toNat).take itemsPerPage
    (.ok { posts := found.map (viewOf w.store), totalPosts := totalPosts }, w)

/-- The resolver `updatePost`. -/
def updatePost (postId : String) (input : PostInput) (req : Req) (w : World) :
    Except Err Post × World :=
  if !req.authed then
    (.error { message := "Not authenticated. ", code := some 401, data := [] },
      clearImage input.image w)
  else
    let errors := postInputErrors input.title input.content
    if errors.length > 0 then
      (.error { message := "Invalid input. ", code := some 422, data := errors },
        clearImage input.image w)
    else
      match w.store.findPost postId with
      | none =>
          (.error { message := "Post not found. ", code := some 404, data := [] },
            clearImage input.image w)
      | some post =>
          match w.store.populateCreator post with
          | none =>
              (.error { message := "Not authorized. ", code := some 403, data := [] },
                clearImage input.image w)
          | some creator =>
              match req.userId with
              | none =>
                  -- `req.userId.toString()` on `undefined`
                  (.error (typeError "Cannot read property of undefined"), w)
              | some userId =>
                  if creator.id ≠ userId then
                    (.error { message := "Not authorized. ", code := some 403, data := [] },
                      clearImage input.image w)
                  else
                    let updated : Post :=
                      { post with
                        title := input.title, content := input.content,
                        image := if input.image ≠ "undefined" then input.image else post.image }
                    (.ok updated, { w with store := w.store.savePost updated })

/-- The resolver `deletePost`. -/
def deletePost (postId : String) (req : Req) (w : World) : Except Err Bool × World :=
  if !req.authed then
    (.error { message := "Not authenticated. ", code := some 401, data := [] }, w)
  else
    match w.store.findPost postId with
    | none => (.error { message := "Post not found. ", code := some 404, data := [] }, w)
    | some post =>
        match post.creator with
        | none => (.error { message := "Not authorized. ", code := some 403, data := [] }, w)
        | some creatorId =>
            match req.userId with
            | none =>
                -- `req.userId.toString()` on `undefined`
                (.error (typeError "Cannot read property of undefined"), w)
            | some userId =>
                if creatorId ≠ userId then
                  (.error { message := "Not authorized. ", code := some 403, data := [] }, w)
                else
                  let w1 := clearImage post.image w
                  let w2 := { w1 with store := w1.store.deletePost postId }
                  match w2.store.findUser userId with
                  | none =>
                      -- `user.posts` on `null`
                      (.error (typeError "Cannot read property of null"), w2)
                  | some user =>
                      (.ok true, { w2 with store := w2.store.saveUser (user.pullPost postId) })

end Resolvers

/-! ## controllers/feed.js -/

namespace Feed

/-- The `catch` block of every controller: an error without `statusCode` gets
500 before it is handed to `next`. -/
def caught (e : Err) : Err :=
  match e.code with
  | some c => if c = 0 then { e with code := some 500 } else e
  | none => { e with code := some 500 }

/-- A response sent with `res.status(status).json({ message, ... })`. -/
structure Resp where
  status : Nat
  message : String
deriving DecidableEq, Repr

/-- A listed post: the document and its populated creator (`null` as `none`). -/
structure PostDoc where
  doc : Post
  creator : Option User
deriving DecidableEq, Repr

/-- The body of the response of `getPosts`. -/
structure PostsResp where
  status : Nat
  message : String
  posts : List PostDoc
  totalItems : Nat
deriving DecidableEq, Repr

/-- The value of `+req.query.page || 1` (line 13).  The argument is the number
`+req.query.page`, `none` standing for NaN (the parameter is absent or is not
numeric text); numbers that are not integers are left out. -/
def pageOf (query : Option Int) : Int :=
  match query with
  | none => 1
  | some n => if n = 0 then 1 else n

/-- The argument of `.skip(...)` in `getPosts` (line 20). -/
def skipOf (query : Option Int) : Int :=
  (pageOf query - 1) * 2

/-- The controller `getPosts`.  The store refuses a negative skip value, which
the `catch` block turns into a 500. -/
def getPosts (query : Option Int) (w : World) : Except Err PostsResp × World :=
  let perPage := 2
  let totalItems := w.store.posts.length
  let skip := skipOf query
  if skip < 0 then
    (.error (caught { message := "Skip value must be non-negative", code := none, data := [] }), w)
  else
    let found := ((Resolvers.sortByCreatedAtDesc w.store.posts).drop skip.toNat).take perPage
    (.ok { status := 200, message := "Posts fetched successfully",
           posts := found.map (fun p => { doc := p, creator := w.store.populateCreator p }),
           totalItems := totalItems }, w)

/-- What `updatePost` reads of the request: `req.userId`, `req.params.postId`,
the body fields, the key of the uploaded file (`req.file.key`, `none` when no
file came with the request) and the messages of `validationResult(req)`. -/
structure UpdateReq where
  userId : Option String
  postId : String
  title : String
  content : String
  image : Option String
  file : Option String
  validation : List String
deriving DecidableEq, Repr

/-- The variable `image` of `updatePost` after lines 107-119: the body field,
replaced by the key of the uploaded file when there is one. -/
def UpdateReq.suppliedImage (r : UpdateReq) : Option String :=
  match r.file with
  | some key => some key
  | none => r.image

/-- The controller `updatePost`. -/
def updatePost (r : UpdateReq) (w : World) : Except Err Resp × World :=
  if !r.validation.isEmpty then
    (.error (caught { message := "Validation failed, entered data is incorrect.",
                      code := some 422, data := r.validation }), w)
  else
    let image := r.suppliedImage
    -- `!image || image === 'undefined'`
    if image = none ∨ image = some "" ∨ image = some "undefined" then
      (.error (caught { message := "No file picked", code := some 422, data := [] }), w)
    else
      match w.store.findPost r.postId with
      | none => (.error (caught { message := "Post not found", code := some 404, data := [] }), w)
      | some post =>
          match w.store.populateCreator post with
          | none =>
              -- `post.creator._id` on `null`
              (.error (caught (typeError "Cannot read property of null")), w)
          | some creator =>
              if some creator.id ≠ r.userId then
                (.error (caught { message := "Not authorized", code := some 403, data := [] }), w)
              else
                let img := image.getD ""
                let w1 := if post.image ≠ img then clearImage post.image w else w
                let updated : Post :=
                  { post with title := r.title, content := r.content, image := img }
                let w2 := { w1 with store := w1.store.savePost updated }
                let w3 := emit "update" (.doc updated) w2
                (.ok { status := 200, message := "Post updated" }, w3)

/-- The controller `deletePost`; `userId` is `req.userId`, `postId` is
`req.params.postId`. -/
def deletePost (userId : Option String) (postId : String) (w : World) :
    Except Err Resp × World :=
  match w.store.findPost postId with
  | none => (.error (caught { message := "Post not found", code := some 404, data := [] }), w)
  | some post =>
      match post.creator with
      | none =>
          -- `post.creator.toString()` on a missing creator
          (.error (caught (typeError "Cannot read property of undefined")), w)
      | some creatorId =>
          if some creatorId ≠ userId then
            (.error (caught { message := "Not authorized", code := some 403, data := [] }), w)
          else
            let w1 := clearImage post.image w
            let w2 := { w1 with store := w1.store.deletePost postId }
            match userId.bind w2.store.findUser with
            | none =>
                -- `user.posts` on `null`
                (.error (caught (typeError "Cannot read property of null")), w2)
            | some user =>
                let w3 := { w2 with store := w2.store.saveUser (user.pullPost post.id) }
                let w4 := emit "delete" (.ref postId) w3
                (.ok { status := 200, message := "Post deleted" }, w4)

end Feed

/-! ## Outcome kinds shared by the two transports -/

/-- The kind of an outcome: the status reported for an error, or success. -/
inductive Kind where
  | done
  | failed (status : Nat)
deriving DecidableEq, Repr

/-- The kind of a handler result. -/
def kindOf {α : Type} (r : Except Err α) : Kind :=
  match r with
  | .ok _ => .done
  | .error e => .failed e.status

/-! ## The resolvers over a `clearImage` that may reject -/

namespace Resolvers

/-- The resolvers again, with `clearImage` an external call that may succeed or
fail: `janitor key` is what `await clearImage(key)` gives, `.error e` when the
promise rejects with `e`.  An awaited call that rejects leaves the resolver as its
error, as no resolver has a `try` around it. -/
structure Awaited where
  janitor : String → Except Err Unit

/-- The statements `await clearImage(key); ...; throw err` of a rejection path. -/
def Awaited.clearThenThrow {α : Type} (a : Awaited) (key : String) (err : Err) (w : World) :
    Except Err α × World :=
  match a.janitor key with
  | .error e => (.error e, clearImage key w)
  | .ok _ => (.error err, clearImage key w)

/-- The resolver `createPost` over a janitor. -/
def Awaited.createPost (a : Awaited) (lib : Lib) (newId : String) (now : Nat)
    (input : PostInput) (req : Req) (w : World) : Except Err Post × World :=
  if !req.authed then
    a.clearThenThrow input.image { message := "Not authenticated. ", code := some 401, data := [] } w
  else
    let errors := postInputErrors input.title input.content
    if errors.length > 0 then
      a.clearThenThrow input.image { message := "Invalid input. ", code := some 422, data := errors } w
    else
      match req.userId.bind w.store.findUser with
      | none =>
          a.clearThenThrow input.image { message := "Invalid user. ", code := some 401, data := [] } w
      | some user =>
          let post : Post :=
            { id := newId, title := lib.escape input.title, content := lib.escape input.content,
              image := input.image, creator := some user.id, createdAt := now }
          let s1 := w.store.insertPost post
          let s2 := s1.saveUser (user.pushPost post.id)
          (.ok post, { w with store := s2 })

/-- The resolver `updatePost` over a janitor. -/
def Awaited.updatePost (a : Awaited) (postId : String) (input : PostInput) (req : Req)
    (w : World) : Except Err Post × World :=
  if !req.authed then
    a.clearThenThrow input.image { message := "Not authenticated. ", code := some 401, data := [] } w
  else
    let errors := postInputErrors input.title input.content
    if errors.length > 0 then
      a.clearThenThrow input.image { message := "Invalid input. ", code := some 422, data := errors } w
    else
      match w.store.findPost postId with
      | none =>
          a.clearThenThrow input.image
            { message := "Post not found. ", code := some 404, data := [] } w
      | some post =>
          match w.store.populateCreator post with
          | none =>
              a.clearThenThrow input.image
                { message := "Not authorized. ", code := some 403, data := [] } w
          | some creator =>
              match req.userId with
              | none =>
                  (.error (typeError "Cannot read property of undefined"), w)
              | some userId =>
                  if creator.id ≠ userId then
                    a.clearThenThrow input.image
                      { message := "Not authorized. ", code := some 403, data := [] } w
                  else
                    let updated : Post :=
                      { post with
                        title := input.title, content := input.content,
                        image := if input.image ≠ "undefined" then input.image else post.image }
                    (.ok updated, { w with store := w.store.savePost updated })

/-- The resolver `deletePost` over a janitor. -/
def Awaited.deletePost (a : Awaited) (postId : String) (req : Req) (w : World) :
    Except Err Bool × World :=
  if !req.authed then
    (.error { message := "Not authenticated. ", code := some 401, data := [] }, w)
  else
    match w.store.findPost postId with
    | none => (.error { message := "Post not found. ", code := some 404, data := [] }, w)
    | some post =>
        match post.creator with
        | none => (.error { message := "Not authorized. ", code := some 403, data := [] }, w)
        | some creatorId =>
            match req.userId with
            | none =>
                (.error (typeError "Cannot read property of undefined"), w)
            | some userId =>
                if creatorId ≠ userId then
                  (.error { message := "Not authorized. ", code := some 403, data := [] }, w)
                else
                  let w1 := clearImage post.image w
                  match a.janitor post.image with
                  | .error e =>
                      -- line 308 rejects: nothing after it runs
                      (.error e, w1)
                  | .ok _ =>
                      let w2 := { w1 with store := w1.store.deletePost postId }
                      match w2.store.findUser userId with
                      | none =>
                          (.error (typeError "Cannot read property of null"), w2)
                      | some user =>
                          (.ok true,
                            { w2 with store := w2.store.saveUser (user.pullPost postId) })

end Resolvers

/-! ## Sample data -/

namespace Sample

/-- The owner of the sample post. -/
def alice : User :=
  { id := "u1", email := "alice@example.com", name := "Alice", password := "x1", posts := ["p1"] }

/-- Another user. -/
def bob : User :=
  { id := "u2", email := "bob@example.com", name := "Bob", password := "x2", posts := [] }

/-- A post of `alice` with attachment `a1`. -/
def post1 : Post :=
  { id := "p1", title := "First post", content := "Hello world", image := "a1",
    creator := some "u1", createdAt := 10 }

/-- A world with the post and both users. -/
def world : World :=
  { store := { posts := [post1], users := [alice, bob] }, cleared := [], events := [] }

/-- The same world after the record of `alice` has been removed from the store:
the post still refers to her id. -/
def orphanWorld : World :=
  { store := { posts := [post1], users := [bob] }, cleared := [], events := [] }

/-- Valid post fields that leave the image as it is. -/
def edit : Resolvers.PostInput :=
  { title := "Edited title", image := "undefined", content := "Edited content" }

/-- Sample library functions: an email needs an `@`, escaping leaves plain
text as it is, hashing tags the password. -/
def lib : Lib :=
  { isEmail := fun e => e.data.contains '@', escape := fun t => t, hash := fun t => "#" ++ t }

/-- A signup whose name is made of spaces only. -/
def blankNameSignup : Resolvers.UserInput :=
  { email := "carol@example.com", name := "   ", password := "abc12" }

/-- An update of `p1` that names the attachment the post already has. -/
def editSameImage : Resolvers.PostInput :=
  { title := "Edited title", image := "a1", content := "Edited content" }

/-- An update of `p1` that brings a new attachment `a2`. -/
def editNewImage : Resolvers.PostInput :=
  { title := "Edited title", image := "a2", content := "Edited content" }

/-- The update of `p1` by `alice` through the controller, with the uploaded file `a2`. -/
def restEdit : Feed.UpdateReq :=
  { userId := some "u1", postId := "p1", title := "Edited title", content := "Edited content",
    image := none, file := some "a2", validation := [] }

/-- Three posts stored in an order that is not their order of creation. -/
def feedWorld : World :=
  { store :=
      { posts :=
          [ post1,
            { id := "p2", title := "Second post", content := "More words", image := "b1",
              creator := some "u2", createdAt := 30 },
            { id := "p3", title := "Third post", content := "Still more", image := "c1",
              creator := some "u1", createdAt := 20 } ],
        users := [alice, bob] },
    cleared := [], events := [] }

/-- The error of a storage that refuses a deletion. -/
def storageError : Err :=
  { message := "storage unavailable", code := none, data := [] }

/-- A `clearImage` that rejects on every key. -/
def rejecting : Resolvers.Awaited :=
  { janitor := fun _ => .error storageError }

/-- A `clearImage` that succeeds on every key. -/
def succeeding : Resolvers.Awaited :=
  { janitor := fun _ => .ok () }

/-- The update of `p1` by `bob` through the controller, naming the attachment the
post already has. -/
def restEditSameImage : Feed.UpdateReq :=
  { userId := some "u2", postId := "p1", title := "Edited title", content := "Edited content",
    image := some "a1", file := none, validation := [] }

end Sample

/-! ## Theorems -/

/-! ### The auth middleware -/

/-- C1: whatever the Authorization header is and whatever `jwt.verify` does, the
auth middleware does not raise and calls `next` exactly once with no error.
`jwt.verify` is invoked, on the second space-separated part of the header, exactly
when the header is a non-empty string (an absent or empty header is answered by
`!authHeader` before any verification).  `isAuth` is set to true exactly when the
header is present and `jwt.verify` returns a truthy claim, and then `userId` is the
claim's `userId`; in every other case `isAuth` is set to false and `userId` is left
as it was. -/
theorem auth_anonymous_unless_verified (verify : Option String → Middleware.VerifyOutcome)
    (header : Option String) (req : Req) :
    ∃ run, Middleware.auth verify header req = .ok run ∧
      run.nextCalls = [none] ∧
      run.verified =
        (header.filter (fun h => !h.isEmpty)).map (fun h => verify (Middleware.extractToken h)) ∧
      (run.req.isAuth = some true ↔
        header.isSome ∧ ∃ uid, run.verified = some (.claim uid)) ∧
      (∀ uid, run.verified = some (.claim uid) → run.req.userId = uid) ∧
      (run.req.isAuth ≠ some true →
        run.req.isAuth = some false ∧ run.req.userId = req.userId) := by
  cases header with
  | none => exact ⟨_, rfl, by simp⟩
  | some h =>
    by_cases he : h.isEmpty
    · simp [Middleware.auth, he, Option.filter]
    · cases hv : verify (Middleware.extractToken h) <;>
        simp [Middleware.auth, he, hv, Option.filter]

/-! ### Authorization of the mutations -/

/-- C2, evaluated where it fails: `alice` holds a valid token and owns `p1`, but
her user record is gone.  The resolver `updatePost` (which populates the creator)
rejects her update with code 403, the resolver `deletePost` (which reads the bare
reference) lets her through: it clears the image, deletes the post and then
fails on the missing user record with an error that carries no code. -/
theorem updatePost_denies_deletePost_allows_removed_creator :
    Resolvers.updatePost "p1" Sample.edit (Req.ofIdentity true "u1") Sample.orphanWorld =
      (.error { message := "Not authorized. ", code := some 403, data := [] },
        { Sample.orphanWorld with cleared := ["undefined"] }) ∧
    Resolvers.deletePost "p1" (Req.ofIdentity true "u1") Sample.orphanWorld =
      (.error (typeError "Cannot read property of null"),
        { store := { posts := [], users := [Sample.bob] }, cleared := ["a1"], events := [] }) := by
  constructor <;> rfl

/-- Both resolvers take the same authorization decision on a post whose creator
reference is unset or resolves to a user record: 401 without authentication, 403
when the creator is missing or is not the caller, and the mutation otherwise. -/
theorem authorization_agrees_when_creator_resolves (isAuth : Bool) (userId postId : String)
    (input : Resolvers.PostInput) (w : World) (post : Post)
    (hpost : w.store.findPost postId = some post)
    (hres : ∀ c, post.creator = some c → ∃ u, w.store.findUser c = some u)
    (hvalid : Resolvers.postInputErrors input.title input.content = []) :
    kindOf (Resolvers.updatePost postId input (Req.ofIdentity isAuth userId) w).1 =
      kindOf (Resolvers.deletePost postId (Req.ofIdentity isAuth userId) w).1 ∧
    (isAuth = false →
      kindOf (Resolvers.deletePost postId (Req.ofIdentity isAuth userId) w).1 = .failed 401) ∧
    (isAuth = true → post.creator ≠ some userId →
      kindOf (Resolvers.deletePost postId (Req.ofIdentity isAuth userId) w).1 = .failed 403) ∧
    (isAuth = true → post.creator = some userId →
      kindOf (Resolvers.deletePost postId (Req.ofIdentity isAuth userId) w).1 = .done) := by
  cases isAuth with
  | false =>
    simp [Resolvers.updatePost, Resolvers.deletePost, Req.ofIdentity, Req.authed, kindOf,
      Err.status]
  | true =>
    cases hc : post.creator with
    | none =>
      simp [Resolvers.updatePost, Resolvers.deletePost, Req.ofIdentity, Req.authed, kindOf,
        Err.status, hvalid, hpost, Store.populateCreator, hc]
    | some c =>
      obtain ⟨u, hu⟩ := hres c hc
      have huid : u.id = c := by simpa [Store.findUser] using List.find?_some hu
      have hu2 : List.find? (fun v => v.id == c) w.store.users = some u := hu
      by_cases hcu : c = userId
      · subst hcu
        simp [Resolvers.updatePost, Resolvers.deletePost, Req.ofIdentity, Req.authed, kindOf,
          Err.status, hvalid, hpost, Store.populateCreator, hc, hu, huid, Store.findUser,
          Store.deletePost, clearImage, hu2]
      · simp [Resolvers.updatePost, Resolvers.deletePost, Req.ofIdentity, Req.authed, kindOf,
          Err.status, hvalid, hpost, Store.populateCreator, hc, hu, huid, hcu]

/-! ### The two transports on `deletePost` -/

/-- C3 fails for an anonymous request on an existing post: the controller has no
authentication check and answers 403 (the creator differs from the unset
`userId`), the resolver answers 401. -/
theorem deletePost_rest_403_graphql_401_when_anonymous :
    kindOf (Feed.deletePost none "p1" Sample.world).1 = .failed 403 ∧
    kindOf (Resolvers.deletePost "p1" Req.anonymous Sample.world).1 = .failed 401 ∧
    Feed.deletePost none "p1" Sample.world =
      (.error { message := "Not authorized", code := some 403, data := [] }, Sample.world) ∧
    Resolvers.deletePost "p1" Req.anonymous Sample.world =
      (.error { message := "Not authenticated. ", code := some 401, data := [] },
        Sample.world) := by
  refine ⟨by rfl, by rfl, by rfl, by rfl⟩

/-- For an authenticated identity and a looked-up post that is absent or has a
creator set, the `deletePost` controller and the `deletePost` resolver produce the
same outcome kind, the same store and the same `clearImage` calls. -/
theorem deletePost_rest_kinds_agree (userId postId : String) (w : World)
    (hcreator : ∀ post, w.store.findPost postId = some post → post.creator ≠ none) :
    kindOf (Feed.deletePost (some userId) postId w).1 =
      kindOf (Resolvers.deletePost postId (Req.ofIdentity true userId) w).1 ∧
    (Feed.deletePost (some userId) postId w).2.store =
      (Resolvers.deletePost postId (Req.ofIdentity true userId) w).2.store ∧
    (Feed.deletePost (some userId) postId w).2.cleared =
      (Resolvers.deletePost postId (Req.ofIdentity true userId) w).2.cleared ∧
    (w.store.findPost postId = none →
      kindOf (Resolvers.deletePost postId (Req.ofIdentity true userId) w).1 = .failed 404 ∧
      (Resolvers.deletePost postId (Req.ofIdentity true userId) w).2 = w) ∧
    (∀ post c, w.store.findPost postId = some post → post.creator = some c → c ≠ userId →
      kindOf (Resolvers.deletePost postId (Req.ofIdentity true userId) w).1 = .failed 403 ∧
      (Resolvers.deletePost postId (Req.ofIdentity true userId) w).2 = w) ∧
    (∀ post, w.store.findPost postId = some post → post.creator = some userId →
      (Resolvers.deletePost postId (Req.ofIdentity true userId) w).2.cleared =
        w.cleared ++ [post.image] ∧
      (Resolvers.deletePost postId (Req.ofIdentity true userId) w).2.store.posts =
        w.store.posts.filter (fun q => q.id != postId) ∧
      (w.store.findUser userId ≠ none →
        kindOf (Resolvers.deletePost postId (Req.ofIdentity true userId) w).1 = .done)) := by
  cases hp : w.store.findPost postId with
  | none =>
    simp [Feed.deletePost, Resolvers.deletePost, Req.ofIdentity, Req.authed, kindOf, Err.status,
      Feed.caught, hp]
  | some post =>
    have hpid : post.id = postId := by simpa [Store.findPost] using List.find?_some hp
    cases hc : post.creator with
    | none => exact absurd hc (hcreator post hp)
    | some c =>
      by_cases hcu : c = userId
      · subst hcu
        cases hu : List.find? (fun v => v.id == c) w.store.users with
        | none =>
          simp [Feed.deletePost, Resolvers.deletePost, Req.ofIdentity, Req.authed, kindOf,
            Err.status, Feed.caught, hp, hc, Store.findUser, Store.deletePost, clearImage, hu,
            typeError]
          intro p1 c1 h1 h2
          subst h1
          rw [hc] at h2
          exact (Option.some.inj h2).symm
        | some u =>
          simp [Feed.deletePost, Resolvers.deletePost, Req.ofIdentity, Req.authed, kindOf,
            Err.status, Feed.caught, hp, hc, Store.findUser, Store.deletePost, clearImage, hu,
            typeError, hpid, emit, Store.saveUser]
          intro p1 c1 h1 h2
          subst h1
          rw [hc] at h2
          exact (Option.some.inj h2).symm
      · simp [Feed.deletePost, Resolvers.deletePost, Req.ofIdentity, Req.authed, kindOf,
          Err.status, Feed.caught, hp, hc, hcu]


/-- C3, amended: for an authenticated identity and a looked-up post that is
absent or has a creator set, the `deletePost` controller and the `deletePost`
resolver produce the same outcome kind, the same store and the same `clearImage`
calls: 404 when the post is absent, 403 when its creator is not the caller, and
otherwise the image is cleared and the post deleted, with success when the
caller's user record exists.  The controller has no authentication check: for an
anonymous request it answers 404 for an absent post and 403 for a post with a
creator, leaving the world as it was, where the resolver answers 401. -/
theorem deletePost_rest_agrees_with_graphql (userId postId : String) (w : World)
    (hcreator : ∀ post, w.store.findPost postId = some post → post.creator ≠ none) :
    kindOf (Feed.deletePost (some userId) postId w).1 =
      kindOf (Resolvers.deletePost postId (Req.ofIdentity true userId) w).1 ∧
    (Feed.deletePost (some userId) postId w).2.store =
      (Resolvers.deletePost postId (Req.ofIdentity true userId) w).2.store ∧
    (Feed.deletePost (some userId) postId w).2.cleared =
      (Resolvers.deletePost postId (Req.ofIdentity true userId) w).2.cleared ∧
    (w.store.findPost postId = none →
      kindOf (Resolvers.deletePost postId (Req.ofIdentity true userId) w).1 = .failed 404 ∧
      (Resolvers.deletePost postId (Req.ofIdentity true userId) w).2 = w) ∧
    (∀ post c, w.store.findPost postId = some post → post.creator = some c → c ≠ userId →
      kindOf (Resolvers.deletePost postId (Req.ofIdentity true userId) w).1 = .failed 403 ∧
      (Resolvers.deletePost postId (Req.ofIdentity true userId) w).2 = w) ∧
    (∀ post, w.store.findPost postId = some post → post.creator = some userId →
      (Resolvers.deletePost postId (Req.ofIdentity true userId) w).2.cleared =
        w.cleared ++ [post.image] ∧
      (Resolvers.deletePost postId (Req.ofIdentity true userId) w).2.store.posts =
        w.store.posts.filter (fun q => q.id != postId) ∧
      (w.store.findUser userId ≠ none →
        kindOf (Resolvers.deletePost postId (Req.ofIdentity true userId) w).1 = .done)) ∧
    (w.store.findPost postId = none →
      Feed.deletePost (some userId) postId w =
        (.error { message := "Post not found", code := some 404, data := [] }, w) ∧
      Feed.deletePost none postId w =
        (.error { message := "Post not found", code := some 404, data := [] }, w)) ∧
    (∀ post c, w.store.findPost postId = some post → post.creator = some c → c ≠ userId →
      Feed.deletePost (some userId) postId w =
        (.error { message := "Not authorized", code := some 403, data := [] }, w)) ∧
    (∀ post c, w.store.findPost postId = some post → post.creator = some c →
      Feed.deletePost none postId w =
        (.error { message := "Not authorized", code := some 403, data := [] }, w)) ∧
    Resolvers.deletePost postId Req.anonymous w =
      (.error { message := "Not authenticated. ", code := some 401, data := [] }, w) ∧
    (∀ post user, w.store.findPost postId = some post → post.creator = some userId →
      w.store.findUser userId = some user →
      Feed.deletePost (some userId) postId w =
        (.ok { status := 200, message := "Post deleted" },
          { store := (w.store.deletePost postId).saveUser (user.pullPost postId),
            cleared := w.cleared ++ [post.image],
            events := w.events ++
              [{ channel := "posts", action := "delete", subject := .ref postId }] }) ∧
      Resolvers.deletePost postId (Req.ofIdentity true userId) w =
        (.ok true,
          { store := (w.store.deletePost postId).saveUser (user.pullPost postId),
            cleared := w.cleared ++ [post.image], events := w.events })) := by
  have h := deletePost_rest_kinds_agree userId postId w hcreator
  refine ⟨h.1, h.2.1, h.2.2.1, h.2.2.2.1, h.2.2.2.2.1, h.2.2.2.2.2, ?_, ?_, ?_, ?_, ?_⟩
  · intro hp
    simp [Feed.deletePost, Feed.caught, hp]
  · intro post c hp hc hcu
    simp [Feed.deletePost, Feed.caught, hp, hc, hcu]
  · intro post c hp hc
    simp [Feed.deletePost, Feed.caught, hp, hc]
  · simp [Resolvers.deletePost, Req.anonymous, Req.authed]
  · intro post user hp hc hu
    have hpid : post.id = postId := by simpa [Store.findPost] using List.find?_some hp
    have hu2 : ({ (clearImage post.image w) with
        store := (clearImage post.image w).store.deletePost postId } : World).store.findUser
          userId = some user := hu
    constructor
    · simp only [Feed.deletePost, hp, hc, Option.bind, hu2]
      simp [clearImage, emit, hpid]
    · simp only [Resolvers.deletePost, Req.ofIdentity, Req.authed, hp, hc, hu2]
      simp [clearImage]

/-- C3, amended, at the sample world: `alice` deletes her post `p1` through either
transport. -/
theorem deletePost_rest_agrees_with_graphql_witness :
    kindOf (Feed.deletePost (some "u1") "p1" Sample.world).1 =
      kindOf (Resolvers.deletePost "p1" (Req.ofIdentity true "u1") Sample.world).1 ∧
    (Feed.deletePost (some "u1") "p1" Sample.world).2.store =
      (Resolvers.deletePost "p1" (Req.ofIdentity true "u1") Sample.world).2.store ∧
    Feed.deletePost none "p1" Sample.world =
      (.error { message := "Not authorized", code := some 403, data := [] }, Sample.world) :=
  have h := deletePost_rest_agrees_with_graphql "u1" "p1" Sample.world (by decide)
  ⟨h.1, h.2.1, h.2.2.2.2.2.2.2.2.1 Sample.post1 "u1" (by rfl) (by rfl)⟩

/-! ### Validation of post fields and of signup -/

/-- The violation list of `createPost` and `updatePost`, case by case. -/
theorem postInputErrors_eq (title content : String) :
    Resolvers.postInputErrors title content =
      (if title.length < 5 then ["Invalid title. "] else []) ++
      (if content.length < 5 then ["Invalid content. "] else []) := by
  simp [Resolvers.postInputErrors, isLength]

/-- C4: for an authenticated request, `createPost` and `updatePost` build the
violation list that holds 'Invalid title. ' iff the title has fewer than 5
characters, followed by 'Invalid content. ' iff the content has fewer than 5
characters, and nothing else; each of them fails with code 422 iff that list is
not empty, and the error then carries the whole list.  The fields ("abcd",
"valid content") give exactly one violation and ("", "") give exactly two. -/
theorem post_fields_violations_and_422 (lib : Lib) (newId postId : String) (now : Nat)
    (userId : Option String) (input : Resolvers.PostInput) (w : World) :
    Resolvers.postInputErrors input.title input.content =
      (if input.title.length < 5 then ["Invalid title. "] else []) ++
      (if input.content.length < 5 then ["Invalid content. "] else []) ∧
    ((∃ e, (Resolvers.createPost lib newId now input ⟨some true, userId⟩ w).1 = .error e ∧
        e.code = some 422) ↔
      Resolvers.postInputErrors input.title input.content ≠ []) ∧
    ((∃ e, (Resolvers.updatePost postId input ⟨some true, userId⟩ w).1 = .error e ∧
        e.code = some 422) ↔
      Resolvers.postInputErrors input.title input.content ≠ []) ∧
    (Resolvers.postInputErrors input.title input.content ≠ [] →
      (Resolvers.createPost lib newId now input ⟨some true, userId⟩ w).1 =
        .error { message := "Invalid input. ", code := some 422,
                 data := Resolvers.postInputErrors input.title input.content } ∧
      (Resolvers.updatePost postId input ⟨some true, userId⟩ w).1 =
        .error { message := "Invalid input. ", code := some 422,
                 data := Resolvers.postInputErrors input.title input.content }) ∧
    Resolvers.postInputErrors "abcd" "valid content" = ["Invalid title. "] ∧
    Resolvers.postInputErrors "" "" = ["Invalid title. ", "Invalid content. "] := by
  refine ⟨postInputErrors_eq _ _, ?_, ?_, ?_, by decide, by decide⟩
  · by_cases he : Resolvers.postInputErrors input.title input.content = []
    · simp only [Resolvers.createPost, Req.authed, he]
      cases req_user : userId.bind w.store.findUser <;> simp
    · have hl : (Resolvers.postInputErrors input.title input.content).length > 0 :=
        List.length_pos.mpr he
      simp [Resolvers.createPost, Req.authed, he, hl]
  · by_cases he : Resolvers.postInputErrors input.title input.content = []
    · cases hp : w.store.findPost postId with
      | none => simp [Resolvers.updatePost, Req.authed, he, hp]
      | some post =>
        cases hc : w.store.populateCreator post with
        | none => simp [Resolvers.updatePost, Req.authed, he, hp, hc]
        | some creator =>
          cases userId with
          | none => simp [Resolvers.updatePost, Req.authed, he, hp, hc, typeError]
          | some uid =>
            by_cases hu : creator.id = uid <;>
              simp [Resolvers.updatePost, Req.authed, he, hp, hc, hu]
    · have hl : (Resolvers.postInputErrors input.title input.content).length > 0 :=
        List.length_pos.mpr he
      simp [Resolvers.updatePost, Req.authed, he, hl]
  · intro he
    have hl : (Resolvers.postInputErrors input.title input.content).length > 0 :=
      List.length_pos.mpr he
    simp [Resolvers.createPost, Resolvers.updatePost, Req.authed, hl]

/-- The test `validator.isEmpty` holds of the empty string only. -/
theorem isEmpty_iff (str : String) : isEmpty str = true ↔ str = "" := by
  cases str with
  | mk data =>
    simp only [isEmpty, String.length, decide_eq_true_eq, List.length_eq_zero]
    constructor
    · intro h
      rw [h]
    · intro h
      exact congrArg String.data h

/-- The password test fails iff the password is short or has a character that is
neither an ASCII letter nor a digit. -/
theorem password_rejected_iff (pw : String) :
    (!isLength pw 5 || !isAlphanumeric pw) = true ↔
      pw.length < 5 ∨ ¬ ∀ c ∈ pw.data, c.isAlphanum = true := by
  cases pw with
  | mk data =>
    cases data with
    | nil => simp [isLength, isAlphanumeric]
    | cons c cs =>
      simp only [isLength, isAlphanumeric, String.length, List.length_cons, List.isEmpty_cons,
        Bool.not_false, Bool.true_and, Bool.or_eq_true, Bool.not_eq_true', decide_eq_false_iff_not,
        not_le, List.all_eq_false, List.all_cons, Bool.and_eq_false_imp, List.mem_cons,
        not_forall]
      constructor
      · rintro (h | h)
        · exact Or.inl h
        · by_cases hc : c.isAlphanum = true
          · obtain ⟨x, hx, hxa⟩ := h hc
            exact Or.inr ⟨x, Or.inr hx, by simp [hxa]⟩
          · exact Or.inr ⟨c, Or.inl rfl, hc⟩
      · rintro (h | ⟨x, hx, hxa⟩)
        · exact Or.inl h
        · right
          intro hc
          rcases hx with rfl | hx
          · exact absurd hc hxa
          · exact ⟨x, hx, by simpa using hxa⟩

/-- C5 fails on a name made of spaces only: every character of the name is
whitespace, yet `createUser` finds no violation and stores the user. -/
theorem createUser_accepts_blank_name :
    (∀ c ∈ Sample.blankNameSignup.name.data, c.isWhitespace = true) ∧
    Resolvers.createUserErrors Sample.lib Sample.blankNameSignup = [] ∧
    (Resolvers.createUser Sample.lib "u3" Sample.blankNameSignup Sample.world).1 =
      .ok { id := "u3", email := "carol@example.com", name := "   ", password := "#abc12",
            posts := [] } := by
  refine ⟨by decide, by decide, by rfl⟩

/-- C5, amended: `createUser` reports all violated rules together, in the order
email, name, password: an email violation iff the email is not syntactically
valid, a name violation iff the name is the empty string, and a password
violation iff the password is shorter than 5 characters or not alphanumeric;
it fails with code 422 carrying that list, and stores nothing, iff the list is
not empty. -/
theorem createUser_violations_and_422 (lib : Lib) (newId : String)
    (input : Resolvers.UserInput) (w : World) :
    Resolvers.createUserErrors lib input =
      (if lib.isEmail input.email = true then [] else ["Invalid email. "]) ++
      (if input.name = "" then ["Name must not be empty. "] else []) ++
      (if input.password.length < 5 ∨ ¬ ∀ c ∈ input.password.data, c.isAlphanum = true then
        ["Password must have a minimun length of 5 numbers or alphabets. "] else []) ∧
    ((∃ e, (Resolvers.createUser lib newId input w).1 = .error e ∧ e.code = some 422) ↔
      Resolvers.createUserErrors lib input ≠ []) ∧
    (Resolvers.createUserErrors lib input ≠ [] →
      Resolvers.createUser lib newId input w =
        (.error { message := "Invalid input. ", code := some 422,
                  data := Resolvers.createUserErrors lib input }, w)) := by
  refine ⟨?_, ?_, ?_⟩
  · unfold Resolvers.createUserErrors
    congr 1
    · congr 1
      · cases lib.isEmail input.email <;> simp
      · by_cases hn : input.name = ""
        · simp [hn, (isEmpty_iff _).mpr]
        · have : ¬ isEmpty input.name = true := fun h => hn ((isEmpty_iff _).mp h)
          simp [hn, this]
    · by_cases hp : (!isLength input.password 5 || !isAlphanumeric input.password) = true
      · rw [if_pos hp, if_pos ((password_rejected_iff _).mp hp)]
      · rw [if_neg hp, if_neg (fun h => hp ((password_rejected_iff _).mpr h))]
  · by_cases he : Resolvers.createUserErrors lib input = []
    · cases hf : w.store.findUserByEmail input.email <;>
        simp [Resolvers.createUser, he, hf]
    · have hl : (Resolvers.createUserErrors lib input).length > 0 := List.length_pos.mpr he
      simp [Resolvers.createUser, he, hl]
  · intro he
    have hl : (Resolvers.createUserErrors lib input).length > 0 := List.length_pos.mpr he
    simp [Resolvers.createUser, hl]

/-! ### Attachments on update -/

/-- C6, evaluated where it fails: `bob` is not the creator of `p1`; his update
names `a1`, the attachment the post already has.  The resolver `updatePost`
rejects it with code 403 and invokes `clearImage` on `a1`, the live attachment
of the post.  The controller `updatePost` rejects the same update with 403 and
invokes `clearImage` on nothing. -/
theorem updatePost_403_clears_current_attachment :
    Sample.post1.image = "a1" ∧
    Resolvers.updatePost "p1" Sample.editSameImage (Req.ofIdentity true "u2") Sample.world =
      (.error { message := "Not authorized. ", code := some 403, data := [] },
        { Sample.world with cleared := ["a1"] }) ∧
    Feed.updatePost Sample.restEditSameImage Sample.world =
      (.error { message := "Not authorized", code := some 403, data := [] }, Sample.world) := by
  refine ⟨by rfl, by rfl, by rfl⟩

/-- A request that `updatePost` rejects with code 403 leaves the world as it was
but for one call of `clearImage` on the supplied key. -/
theorem updatePost_403_world (postId : String) (input : Resolvers.PostInput)
    (req : Req) (w : World) (e : Err)
    (hrej : (Resolvers.updatePost postId input req w).1 = .error e) (hcode : e.code = some 403) :
    (Resolvers.updatePost postId input req w).2 = clearImage input.image w := by
  by_cases ha : req.authed = true
  · by_cases hl : (Resolvers.postInputErrors input.title input.content).length > 0
    · simp [Resolvers.updatePost, ha, hl] at hrej
      subst hrej
      simp at hcode
    · cases hp : w.store.findPost postId with
      | none =>
        simp [Resolvers.updatePost, ha, hl, hp] at hrej
        subst hrej
        simp at hcode
      | some post =>
        cases hc : w.store.populateCreator post with
        | none => simp [Resolvers.updatePost, ha, hl, hp, hc]
        | some creator =>
          cases hu : req.userId with
          | none =>
            simp [Resolvers.updatePost, ha, hl, hp, hc, hu, typeError] at hrej
            subst hrej
            simp at hcode
          | some uid =>
            by_cases hid : creator.id = uid
            · simp [Resolvers.updatePost, ha, hl, hp, hc, hu, hid] at hrej
            · simp [Resolvers.updatePost, ha, hl, hp, hc, hu, hid]
  · simp [Resolvers.updatePost, ha] at hrej
    subst hrej
    simp at hcode

/-- What holds of every request that `updatePost` rejects with code 403: the
store is unchanged (the post keeps its title, content and image) and the one call
of `clearImage` is on the image key the request supplied, so an attachment of the
post that differs from the supplied key is not cleared by the request. -/
theorem updatePost_403_clears_supplied_key_only (postId : String) (input : Resolvers.PostInput)
    (req : Req) (w : World) (e : Err)
    (hrej : (Resolvers.updatePost postId input req w).1 = .error e) (hcode : e.code = some 403) :
    (Resolvers.updatePost postId input req w).2.store = w.store ∧
    (Resolvers.updatePost postId input req w).2.events = w.events ∧
    (Resolvers.updatePost postId input req w).2.cleared = w.cleared ++ [input.image] ∧
    (∀ post, w.store.findPost postId = some post → input.image ≠ post.image →
      post.image ∉ w.cleared →
      post.image ∉ (Resolvers.updatePost postId input req w).2.cleared) := by
  rw [updatePost_403_world postId input req w e hrej hcode]
  refine ⟨rfl, rfl, rfl, ?_⟩
  intro post _ hne hnot
  simp only [clearImage, List.mem_append, List.mem_singleton, not_or]
  exact ⟨hnot, fun h => hne h.symm⟩

/-- At the sample world: `bob` sends an update of `p1` with the new key `a2`; it
is rejected with 403, `a2` is cleared and `a1` stays. -/
theorem updatePost_403_clears_supplied_key_only_witness :
    (Resolvers.updatePost "p1" Sample.editNewImage (Req.ofIdentity true "u2")
      Sample.world).2.store = Sample.world.store ∧
    (Resolvers.updatePost "p1" Sample.editNewImage (Req.ofIdentity true "u2")
      Sample.world).2.cleared = ["a2"] :=
  have h := updatePost_403_clears_supplied_key_only "p1" Sample.editNewImage
    (Req.ofIdentity true "u2") Sample.world
    { message := "Not authorized. ", code := some 403, data := [] } (by rfl) (by rfl)
  ⟨h.1, h.2.2.1⟩

/-- A saved post is the one a later lookup of its id finds. -/
theorem findPost_savePost (s : Store) (postId : String) (post updated : Post)
    (hfind : s.findPost postId = some post) (hid : updated.id = post.id) :
    (s.savePost updated).findPost postId = some updated := by
  have hpid : post.id = postId := by simpa [Store.findPost] using List.find?_some hfind
  unfold Store.findPost Store.savePost
  unfold Store.findPost at hfind
  simp only
  generalize s.posts = l at hfind
  induction l with
  | nil => simp at hfind
  | cons q qs ih =>
    by_cases hq : q.id = postId
    · have hu : (updated.id == postId) = true := by simp [hid, hpid]
      simp [List.find?_cons, hq, hid, hpid, hu]
    · have hq2 : ¬ q.id = updated.id := by rw [hid, hpid]; exact hq
      have hb : (q.id == postId) = false := by simp [hq]
      have hrest : List.find? (fun p => p.id == postId) qs = some post := by
        rw [List.find?_cons, hb] at hfind
        exact hfind
      rw [List.map_cons, if_neg hq2, List.find?_cons, hb]
      exact ih hrest

/-- C7: when the owner `U` of a post with attachment `a1` updates it through the
`updatePost` controller, the request passes validation and supplies an
attachment key `a2` that differs from `a1`, is not empty and is not the string
'undefined', the update succeeds with status 200, `clearImage` is invoked exactly
once and on `a1`, the saved post has image `a2` with the new title and content,
and exactly one event, with action 'update', is emitted. -/
theorem rest_updatePost_replaces_attachment (r : Feed.UpdateReq) (w : World) (post : Post)
    (owner : User) (U a2 : String)
    (hpost : w.store.findPost r.postId = some post)
    (hcreator : post.creator = some U)
    (howner : w.store.findUser U = some owner)
    (hreq : r.userId = some U)
    (hvalid : r.validation = [])
    (himage : r.suppliedImage = some a2)
    (hdiff : a2 ≠ post.image) (hnonempty : a2 ≠ "") (hundef : a2 ≠ "undefined") :
    (Feed.updatePost r w).1 = .ok { status := 200, message := "Post updated" } ∧
    (Feed.updatePost r w).2.cleared = w.cleared ++ [post.image] ∧
    (Feed.updatePost r w).2.store.findPost r.postId =
      some { post with title := r.title, content := r.content, image := a2 } ∧
    (Feed.updatePost r w).2.events =
      w.events ++ [{ channel := "posts", action := "update",
                     subject := .doc { post with title := r.title, content := r.content,
                                                 image := a2 } }] := by
  have hoid : owner.id = U := by simpa [Store.findUser] using List.find?_some howner
  have hpop : w.store.populateCreator post = some owner := by
    simp [Store.populateCreator, hcreator, howner]
  have hsave := findPost_savePost w.store r.postId post
    { post with title := r.title, content := r.content, image := a2 } hpost rfl
  have hdiff2 : ¬ post.image = a2 := fun h => hdiff h.symm
  simp [Feed.updatePost, hvalid, himage, hnonempty, hundef, hpost, hpop, hoid, hreq, hdiff2,
    clearImage, emit, hsave]

/-- C7 at the sample world: `alice` replaces the attachment `a1` of `p1` by `a2`. -/
theorem rest_updatePost_replaces_attachment_witness :
    (Feed.updatePost Sample.restEdit Sample.world).1 =
      .ok { status := 200, message := "Post updated" } ∧
    (Feed.updatePost Sample.restEdit Sample.world).2.cleared = ["a1"] :=
  have h := rest_updatePost_replaces_attachment Sample.restEdit Sample.world Sample.post1
    Sample.alice "u1" "a2" (by rfl) (by rfl) (by rfl) (by rfl) (by rfl) (by rfl)
    (by decide) (by decide) (by decide)
  ⟨h.1, h.2.1⟩

/-! ### Feed pages -/

/-- Pages of two, one after the other, make up the whole list. -/
theorem chunks_concat {α : Type} (n : Nat) : ∀ (l : List α), l.length ≤ 2 * n →
    (List.range n).flatMap (fun k => (l.drop (2 * k)).take 2) = l := by
  induction n with
  | zero =>
    intro l h
    have : l = [] := List.length_eq_zero.mp (by omega)
    simp [this]
  | succ n ih =>
    intro l h
    have hfun : (fun k => (l.drop (2 * (k + 1))).take 2)
        = (fun k => ((l.drop 2).drop (2 * k)).take 2) := by
      funext k
      rw [List.drop_drop]
      congr 2
      omega
    have hrest := ih (l.drop 2) (by rw [List.length_drop]; omega)
    rw [List.range_succ_eq_map, List.flatMap_cons, List.flatMap_map]
    simp only [Function.comp_def, Nat.succ_eq_add_one, Nat.mul_zero, List.drop_zero]
    rw [hfun, hrest, List.take_append_drop]

/-- The sorted listing holds the stored posts, each as often as stored. -/
theorem sortByCreatedAtDesc_perm (ps : List Post) :
    (Resolvers.sortByCreatedAtDesc ps).Perm ps :=
  List.perm_insertionSort _ ps

/-- The sorted listing is in descending order of `createdAt`. -/
theorem sortByCreatedAtDesc_sorted (ps : List Post) :
    (Resolvers.sortByCreatedAtDesc ps).Pairwise (fun a b => b.createdAt ≤ a.createdAt) := by
  haveI : IsTotal Post (fun a b => b.createdAt ≤ a.createdAt) :=
    ⟨fun a b => Nat.le_total b.createdAt a.createdAt⟩
  haveI : IsTrans Post (fun a b => b.createdAt ≤ a.createdAt) :=
    ⟨fun _ _ _ h1 h2 => Nat.le_trans h2 h1⟩
  exact List.sorted_insertionSort _ ps

/-- With distinct creation times the sorted listing is strictly descending. -/
theorem sortByCreatedAtDesc_strict (ps : List Post)
    (hdistinct : (ps.map (fun p => p.createdAt)).Nodup) :
    (Resolvers.sortByCreatedAtDesc ps).Pairwise (fun a b => a.createdAt > b.createdAt) := by
  have hs := sortByCreatedAtDesc_sorted ps
  have hn : ((Resolvers.sortByCreatedAtDesc ps).map (fun p => p.createdAt)).Nodup :=
    ((sortByCreatedAtDesc_perm ps).map _).nodup_iff.mpr hdistinct
  have hn2 : (Resolvers.sortByCreatedAtDesc ps).Pairwise
      (fun a b => a.createdAt ≠ b.createdAt) := List.pairwise_map.mp hn
  exact (hs.and hn2).imp (fun h => Nat.lt_of_le_of_ne h.1 (Ne.symm h.2))

/-- The skip of page `n` for `n ≥ 1`. -/
theorem skipOf_page (n : Nat) (hn : 1 ≤ n) :
    (Resolvers.skipOf (some (n : Int))).toNat = 2 * (n - 1) := by
  have h1 : (n : Int) ≥ 1 := by exact_mod_cast hn
  simp only [Resolvers.skipOf, h1, if_true]
  omega

/-- C8: with the store query run as sort by `createdAt` descending, then skip,
then limit 2, and `N` stored posts of pairwise distinct `createdAt`, the resolver
`posts` answers every page number `n ≥ 1` of an authenticated request with a page;
the pages 1, 2, ..., ceil(N/2), concatenated in that order, are the whole list in
strictly descending `createdAt` order (a rearrangement of the stored posts, so
every post exactly once and none missing); every page has at most 2 items and
`totalPosts = N` on every page. -/
theorem posts_pages_partition_feed (userId : Option String) (w : World)
    (hdistinct : (w.store.posts.map (fun p => p.createdAt)).Nodup) :
    ∃ pg : Nat → Resolvers.PostsPage,
      (∀ n : Nat, 1 ≤ n →
        Resolvers.posts (some (n : Int)) ⟨some true, userId⟩ w = (.ok (pg n), w) ∧
        (pg n).posts.length ≤ 2 ∧
        (pg n).totalPosts = w.store.posts.length) ∧
      ((List.range ((w.store.posts.length + 1) / 2)).flatMap
          (fun k => (pg (k + 1)).posts.map (fun v => v.doc))).Perm w.store.posts ∧
      ((List.range ((w.store.posts.length + 1) / 2)).flatMap
          (fun k => (pg (k + 1)).posts.map (fun v => v.doc))).Pairwise
        (fun a b => a.createdAt > b.createdAt) := by
  refine ⟨fun n =>
    { posts := (((Resolvers.sortByCreatedAtDesc w.store.posts).drop (2 * (n - 1))).take 2).map
        (Resolvers.viewOf w.store),
      totalPosts := w.store.posts.length }, ?_, ?_⟩
  · intro n hn
    refine ⟨?_, ?_, rfl⟩
    · simp only [Resolvers.posts, Req.authed, skipOf_page n hn]
      rfl
    · simp only [List.length_map, List.length_take]
      omega
  · have hcat : (List.range ((w.store.posts.length + 1) / 2)).flatMap
        (fun k => ((((Resolvers.sortByCreatedAtDesc w.store.posts).drop (2 * (k + 1 - 1))).take
          2).map (Resolvers.viewOf w.store)).map (fun v => v.doc)) =
        Resolvers.sortByCreatedAtDesc w.store.posts := by
      have hlen : (Resolvers.sortByCreatedAtDesc w.store.posts).length ≤
          2 * ((w.store.posts.length + 1) / 2) := by
        rw [(sortByCreatedAtDesc_perm w.store.posts).length_eq]
        omega
      have := chunks_concat ((w.store.posts.length + 1) / 2)
        (Resolvers.sortByCreatedAtDesc w.store.posts) hlen
      simpa [Resolvers.viewOf, Function.comp_def] using this
    simp only [hcat]
    exact ⟨sortByCreatedAtDesc_perm _, sortByCreatedAtDesc_strict _ hdistinct⟩

/-- C8 at a sample world of three posts stored out of order. -/
theorem posts_pages_partition_feed_witness :
    ∃ pg : Nat → Resolvers.PostsPage,
      (∀ n : Nat, 1 ≤ n →
        Resolvers.posts (some (n : Int)) ⟨some true, some "u1"⟩ Sample.feedWorld =
          (.ok (pg n), Sample.feedWorld) ∧
        (pg n).posts.length ≤ 2 ∧
        (pg n).totalPosts = Sample.feedWorld.store.posts.length) ∧
      ((List.range ((Sample.feedWorld.store.posts.length + 1) / 2)).flatMap
          (fun k => (pg (k + 1)).posts.map (fun v => v.doc))).Perm Sample.feedWorld.store.posts ∧
      ((List.range ((Sample.feedWorld.store.posts.length + 1) / 2)).flatMap
          (fun k => (pg (k + 1)).posts.map (fun v => v.doc))).Pairwise
        (fun a b => a.createdAt > b.createdAt) :=
  posts_pages_partition_feed (some "u1") Sample.feedWorld (by decide)

/-- C9, evaluated where it fails: for the query `page=-3` the controller
`getPosts` keeps the page number -3 and asks the store to skip -8 posts, a
negative offset that the store refuses (status 500); the resolver `posts` skips
0 posts for the same page number. -/
theorem rest_getPosts_negative_page_skips_negative :
    Feed.pageOf (some (-3)) = -3 ∧
    Feed.skipOf (some (-3)) = -8 ∧
    Resolvers.skipOf (some (-3)) = 0 ∧
    kindOf (Feed.getPosts (some (-3)) Sample.feedWorld).1 = .failed 500 := by
  refine ⟨by decide, by decide, by decide, by rfl⟩

/-- The skip offsets on the pages where both listings behave as specified: page
numbers `p ≥ 1` skip `(p - 1) * 2` in both, an absent or zero page skips 0 in
both, and the resolver also skips 0 for a negative page and never skips a
negative number of posts. -/
theorem skip_offsets_on_valid_pages :
    (∀ p : Int, 1 ≤ p →
      Feed.skipOf (some p) = (p - 1) * 2 ∧ Resolvers.skipOf (some p) = (p - 1) * 2) ∧
    Feed.skipOf none = 0 ∧ Feed.skipOf (some 0) = 0 ∧
    Resolvers.skipOf none = 0 ∧
    (∀ p : Int, p ≤ 0 → Resolvers.skipOf (some p) = 0) ∧
    (∀ page : Option Int, 0 ≤ Resolvers.skipOf page) := by
  refine ⟨?_, by decide, by decide, by decide, ?_, ?_⟩
  · intro p hp
    have h0 : p ≠ 0 := by omega
    simp [Feed.skipOf, Feed.pageOf, Resolvers.skipOf, h0, hp]
  · intro p hp
    have h1 : ¬ p ≥ 1 := by omega
    simp [Resolvers.skipOf, h1]
  · intro page
    cases page with
    | none => simp [Resolvers.skipOf]
    | some p =>
      by_cases h1 : p ≥ 1
      · simp only [Resolvers.skipOf, h1, if_true]
        omega
      · simp [Resolvers.skipOf, h1]

/-! ### Creating a post -/

/-- A saved user is the one a later lookup of its id finds. -/
theorem findUser_saveUser (s : Store) (userId : String) (user updated : User)
    (hfind : s.findUser userId = some user) (hid : updated.id = user.id) :
    (s.saveUser updated).findUser userId = some updated := by
  have hpid : user.id = userId := by simpa [Store.findUser] using List.find?_some hfind
  unfold Store.findUser Store.saveUser
  unfold Store.findUser at hfind
  simp only
  generalize s.users = l at hfind
  induction l with
  | nil => simp at hfind
  | cons q qs ih =>
    by_cases hq : q.id = userId
    · have hu : (updated.id == userId) = true := by simp [hid, hpid]
      simp [List.find?_cons, hq, hid, hpid, hu]
    · have hq2 : ¬ q.id = updated.id := by rw [hid, hpid]; exact hq
      have hb : (q.id == userId) = false := by simp [hq]
      have hrest : List.find? (fun p => p.id == userId) qs = some user := by
        rw [List.find?_cons, hb] at hfind
        exact hfind
      rw [List.map_cons, if_neg hq2, List.find?_cons, hb]
      exact ih hrest

/-- C10: every rejection of `createPost` invokes `clearImage` exactly once, on
the supplied image key, and leaves the store as it was (no post persisted, no
user's posts list changed).  An unauthenticated request fails with code 401; an
authenticated one with a title or content shorter than 5 characters fails with
code 422; an authenticated valid one whose user record does not exist fails with
code 401.  Otherwise the post is persisted with creator the authenticated user,
and its id is appended to the end of that user's posts list. -/
theorem createPost_rejections_and_success (lib : Lib) (newId : String) (now : Nat)
    (input : Resolvers.PostInput) (req : Req) (w : World) :
    (∀ e, (Resolvers.createPost lib newId now input req w).1 = .error e →
      (Resolvers.createPost lib newId now input req w).2.store = w.store ∧
      (Resolvers.createPost lib newId now input req w).2.cleared = w.cleared ++ [input.image]) ∧
    (req.authed = false →
      (Resolvers.createPost lib newId now input req w).1 =
        .error { message := "Not authenticated. ", code := some 401, data := [] }) ∧
    (req.authed = true → input.title.length < 5 ∨ input.content.length < 5 →
      ∃ e, (Resolvers.createPost lib newId now input req w).1 = .error e ∧ e.code = some 422) ∧
    (req.authed = true → 5 ≤ input.title.length → 5 ≤ input.content.length →
      req.userId.bind w.store.findUser = none →
      (Resolvers.createPost lib newId now input req w).1 =
        .error { message := "Invalid user. ", code := some 401, data := [] }) ∧
    (∀ user, req.authed = true → 5 ≤ input.title.length → 5 ≤ input.content.length →
      req.userId.bind w.store.findUser = some user →
      ∃ post, (Resolvers.createPost lib newId now input req w).1 = .ok post ∧
        post.id = newId ∧ post.image = input.image ∧ post.creator = req.userId ∧
        (Resolvers.createPost lib newId now input req w).2.store.posts = w.store.posts ++ [post] ∧
        (Resolvers.createPost lib newId now input req w).2.store.findUser user.id =
          some { user with posts := user.posts ++ [post.id] } ∧
        (Resolvers.createPost lib newId now input req w).2.cleared = w.cleared) := by
  refine ⟨?_, ?_, ?_, ?_, ?_⟩
  · intro e he
    by_cases ha : req.authed = true
    · by_cases hl : (Resolvers.postInputErrors input.title input.content).length > 0
      · simp [Resolvers.createPost, ha, hl, clearImage]
      · cases hu : req.userId.bind w.store.findUser with
        | none => simp [Resolvers.createPost, ha, hl, hu, clearImage]
        | some user => simp [Resolvers.createPost, ha, hl, hu] at he
    · simp [Resolvers.createPost, ha, clearImage]
  · intro ha
    simp [Resolvers.createPost, ha]
  · intro ha hshort
    have hl : (Resolvers.postInputErrors input.title input.content).length > 0 := by
      rw [postInputErrors_eq]
      rcases hshort with h | h <;> simp [h]
    simp [Resolvers.createPost, ha, hl]
  · intro ha ht hc hu
    have hl : ¬ (Resolvers.postInputErrors input.title input.content).length > 0 := by
      rw [postInputErrors_eq]
      simp [Nat.not_lt.mpr ht, Nat.not_lt.mpr hc]
    simp [Resolvers.createPost, ha, hl, hu]
  · intro user ha ht hc hu
    have hl : ¬ (Resolvers.postInputErrors input.title input.content).length > 0 := by
      rw [postInputErrors_eq]
      simp [Nat.not_lt.mpr ht, Nat.not_lt.mpr hc]
    obtain ⟨uid, huid, hfind⟩ := Option.bind_eq_some.mp hu
    have hid : user.id = uid := by simpa [Store.findUser] using List.find?_some hfind
    have hfind2 : (w.store.insertPost
        { id := newId, title := lib.escape input.title, content := lib.escape input.content,
          image := input.image, creator := some user.id, createdAt := now }).findUser user.id =
        some user := by
      rw [hid]
      exact hfind
    have hsave := findUser_saveUser _ user.id user (user.pushPost newId) hfind2 rfl
    have hres : Resolvers.createPost lib newId now input req w =
        (.ok { id := newId, title := lib.escape input.title, content := lib.escape input.content,
               image := input.image, creator := some user.id, createdAt := now },
          { w with store := (w.store.insertPost
              { id := newId, title := lib.escape input.title,
                content := lib.escape input.content, image := input.image,
                creator := some user.id, createdAt := now }).saveUser (user.pushPost newId) }) := by
      simp [Resolvers.createPost, ha, hl, hu]
    rw [hres]
    refine ⟨_, rfl, rfl, rfl, ?_, rfl, hsave, rfl⟩
    rw [huid, hid]

/-! ### A `clearImage` that rejects -/

/-- Over a `clearImage` that never rejects the resolvers are the resolvers above. -/
theorem awaited_eq_of_no_rejection (a : Resolvers.Awaited)
    (hok : ∀ key, a.janitor key = .ok ()) :
    (∀ lib newId now input req w,
      a.createPost lib newId now input req w =
        Resolvers.createPost lib newId now input req w) ∧
    (∀ postId input req w,
      a.updatePost postId input req w = Resolvers.updatePost postId input req w) ∧
    (∀ postId req w, a.deletePost postId req w = Resolvers.deletePost postId req w) := by
  refine ⟨?_, ?_, ?_⟩
  · intro lib newId now input req w
    simp only [Resolvers.Awaited.createPost, Resolvers.createPost,
      Resolvers.Awaited.clearThenThrow, hok]
  · intro postId input req w
    simp only [Resolvers.Awaited.updatePost, Resolvers.updatePost,
      Resolvers.Awaited.clearThenThrow, hok]
  · intro postId req w
    simp only [Resolvers.Awaited.deletePost, Resolvers.deletePost, hok]

/-- The resolver `deletePost` itself has no handler for a rejected `clearImage`:
over a janitor that rejects on the image of the post, the owner's delete ends
with that error and the post stays in the store. -/
theorem awaited_deletePost_hands_on_rejection (a : Resolvers.Awaited) (postId userId : String)
    (w : World) (post : Post) (e : Err)
    (hpost : w.store.findPost postId = some post) (hcreator : post.creator = some userId)
    (hrej : a.janitor post.image = .error e) :
    a.deletePost postId (Req.ofIdentity true userId) w = (.error e, clearImage post.image w) := by
  simp [Resolvers.Awaited.deletePost, Req.ofIdentity, Req.authed, hpost, hcreator, hrej]

/-- A deleted post is not found any more. -/
theorem findPost_deletePost (s : Store) (postId : String) :
    (s.deletePost postId).findPost postId = none := by
  simp [Store.findPost, Store.deletePost, List.find?_eq_none]

/-- A rejection path over a `clearImage` that rejects: the error of `clearImage`
is thrown in place of the error the path was about to report. -/
theorem awaited_rejection_replaces_error {α : Type} (a : Resolvers.Awaited) (key : String)
    (err e : Err) (w : World) (hrej : a.janitor key = .error e) :
    (a.clearThenThrow key err w : Except Err α × World) = (.error e, clearImage key w) := by
  simp [Resolvers.Awaited.clearThenThrow, hrej]

/-- C11, evaluated where it fails: `clearImage` rejects with a storage error.
The delete of `p1` by its authenticated owner `alice` ends with that error: the
post stays in the store, `p1` stays in her posts list and `true` is not returned,
while over a `clearImage` that succeeds the post is deleted, the id removed and
`true` returned.  An anonymous `createPost` and an `updatePost` by a user who is
not the creator report the storage error in place of their 401 and 403. -/
theorem resolvers_hand_on_clearImage_rejection :
    Sample.rejecting.deletePost "p1" (Req.ofIdentity true "u1") Sample.world =
      (.error Sample.storageError, { Sample.world with cleared := ["a1"] }) ∧
    Sample.succeeding.deletePost "p1" (Req.ofIdentity true "u1") Sample.world =
      (.ok true,
        { store := { posts := [], users := [{ Sample.alice with posts := [] }, Sample.bob] },
          cleared := ["a1"], events := [] }) ∧
    Sample.rejecting.createPost Sample.lib "p9" 99 Sample.editNewImage Req.anonymous
        Sample.world =
      (.error Sample.storageError, { Sample.world with cleared := ["a2"] }) ∧
    (Sample.succeeding.createPost Sample.lib "p9" 99 Sample.editNewImage Req.anonymous
        Sample.world).1 =
      .error { message := "Not authenticated. ", code := some 401, data := [] } ∧
    Sample.rejecting.updatePost "p1" Sample.editNewImage (Req.ofIdentity true "u2")
        Sample.world =
      (.error Sample.storageError, { Sample.world with cleared := ["a2"] }) ∧
    (Sample.succeeding.updatePost "p1" Sample.editNewImage (Req.ofIdentity true "u2")
        Sample.world).1 =
      .error { message := "Not authorized. ", code := some 403, data := [] } := by
  refine ⟨by rfl, by rfl, by rfl, by rfl, by rfl, by rfl⟩

end MessageBackend
